import Mathlib

/-!
Verification of the sensor-rendering scheduler of the `Sensors` system
(`src/systems/sensors/Sensors.cc`).

The development shallowly embeds the scheduler:

* simulated time (`ignition::common::Time`) is modelled as `ℚ`;
* the update-rate mask (`std::map<SensorId, Time> sensorMask`) is an
  association list over sensor ids;
* the per-sensor scan of `Sensors::PostUpdate` and the body of
  `SensorsPrivate::RunOnce` become pure functions;
* the two-thread gate protocol (simulation thread publishing a request,
  render thread claiming it) becomes a small-step transition relation
  `Step` over a global state `GState` holding the fields protected by
  `renderMutex`; each critical section of the source — which holds that
  mutex for its whole body — is one atomic transition.
-/

namespace SensorsSys

/-- A rendering sensor as seen by the scheduler: an id, an update rate in Hz
(`Sensor::UpdateRate`), and the next scheduled update time
(`Sensor::NextUpdateTime`). -/
structure RSensor where
  id : Nat
  updateRate : ℚ
  nextUpdate : ℚ
  deriving DecidableEq, Repr

/-- The mask deadline written by `RunOnce`:
`Time delta(0.9 / sensor->UpdateRate()); sensorMask[id] = updateTime + delta`.
`0.9 / r` is modelled exactly as the rational `9 / (10 * r)`. -/
def maskDeadline (t : ℚ) (rate : ℚ) : ℚ := t + 9 / (10 * rate)

/-- Association-list update: `sensorMask[id] = d` (insert or overwrite). -/
def maskSet (m : List (Nat × ℚ)) (id : Nat) (d : ℚ) : List (Nat × ℚ) :=
  match m with
  | [] => [(id, d)]
  | (k, v) :: rest => if k = id then (id, d) :: rest else (k, v) :: maskSet rest id d

/-- Association-list lookup: `sensorMask.find(id)`. -/
def maskFind (m : List (Nat × ℚ)) (id : Nat) : Option ℚ :=
  match m with
  | [] => Option.none
  | (k, v) :: rest => if k = id then Option.some v else maskFind rest id

/-- Association-list erase: `sensorMask.erase(it)`. -/
def maskErase (m : List (Nat × ℚ)) (id : Nat) : List (Nat × ℚ) :=
  match m with
  | [] => []
  | (k, v) :: rest => if k = id then rest else (k, v) :: maskErase rest id

/-- The mask-writing loop of `SensorsPrivate::RunOnce` (lines 164-172): for
every active sensor, `sensorMask[sensor->Id()] = updateTime + 0.9/rate`. -/
def maskWrite (active : List RSensor) (t : ℚ) (m : List (Nat × ℚ)) :
    List (Nat × ℚ) :=
  active.foldl (fun acc s => maskSet acc s.id (maskDeadline t s.updateRate)) m

/-!
## The per-sensor scan of `Sensors::PostUpdate` (lines 298-323)

For each registered sensor id the code looks the id up in `sensorMask`; a
found entry with deadline `d` is erased when `d <= t` and otherwise causes a
`continue`; a surviving sensor becomes active when its `dynamic_cast` to
`RenderingSensor` succeeded and `NextUpdateTime() <= t`.
-/

/-- A registered sensor entry as the scan sees it: the data of the sensor and
whether the `dynamic_cast<RenderingSensor *>` of the manager's pointer yields
a non-null pointer. -/
structure ScanSensor where
  sensor : RSensor
  isRendering : Bool
  deriving DecidableEq, Repr

/-- One iteration of the scan loop body, given the mask so far and the
simulated time `t`; returns the mask after this sensor and whether the sensor
joins the active set. -/
def processSensor (m : List (Nat × ℚ)) (t : ℚ) (s : ScanSensor) :
    List (Nat × ℚ) × Bool :=
  match maskFind m s.sensor.id with
  | Option.some d =>
      if d ≤ t then
        (maskErase m s.sensor.id, s.isRendering && decide (s.sensor.nextUpdate ≤ t))
      else
        (m, false)
  | Option.none => (m, s.isRendering && decide (s.sensor.nextUpdate ≤ t))

/-- The whole scan loop: fold over the registered sensors (in registration
order), threading the mask and collecting the active set. -/
def scanSensors (sensors : List ScanSensor) (m : List (Nat × ℚ)) (t : ℚ) :
    List ScanSensor × List (Nat × ℚ) :=
  sensors.foldl
    (fun acc s =>
      let r := processSensor acc.2 t s
      (if r.2 then acc.1 ++ [s] else acc.1, r.1))
    ([], m)

/-- The publish decision of `Sensors::PostUpdate` (lines 289 and 325): the
gate section runs only when `running && initialized`, and then when
`activeSensors.size() || renderUtil.PendingSensors() > 0`. -/
def postUpdatePublishes (running initialized : Bool)
    (sensors : List ScanSensor) (m : List (Nat × ℚ)) (t : ℚ)
    (pendingSensors : Nat) : Bool :=
  running && initialized &&
    (!(scanSensors sensors m t).1.isEmpty || decide (0 < pendingSensors))

/-!
## The render pass of `SensorsPrivate::RunOnce` as an event trace

`RunOnce` (lines 145-195), once past its wait and its `running` check, does:
`renderUtil.Update()`; then, only when `activeSensors` is non-empty: the
mask-writing loop, one `scene->PreRender()`, one
`sensorManager.RunOnce(updateTime)`, and `activeSensors.clear()`; finally
`updateAvailable = false` and a notify (completion). The trace records these
externally visible operations in program order.
-/

/-- Observable operations of one render pass. -/
inductive REvent where
  | sceneUpdate
  | maskEntry (id : Nat) (deadline : ℚ)
  | preRender
  | sensorRun (t : ℚ)
  | complete
  deriving DecidableEq, Repr

/-- The event trace of the body of `SensorsPrivate::RunOnce` for a claimed
request with active set `active` and timestamp `t`, in source order. -/
def runOnceTrace (active : List RSensor) (t : ℚ) : List REvent :=
  [REvent.sceneUpdate] ++
    (if active.isEmpty then []
     else
       active.map (fun s => REvent.maskEntry s.id (maskDeadline t s.updateRate)) ++
         [REvent.preRender, REvent.sensorRun t]) ++
    [REvent.complete]

/-- The pass order as the spec sentence for C2 words it: scene sync, one
pre-render (unconditionally), each sensor's publish, then the mask updates,
then completion. Stated only to be compared with `runOnceTrace`. -/
def runOnceTraceSpecC2 (active : List RSensor) (t : ℚ) : List REvent :=
  [REvent.sceneUpdate, REvent.preRender, REvent.sensorRun t] ++
    active.map (fun s => REvent.maskEntry s.id (maskDeadline t s.updateRate)) ++
    [REvent.complete]

/-!
## `Sensors::CreateSensor` (lines 345-373)

The function rejects a descriptor of `sdf::SensorType::NONE` with a logged
error and an empty return; otherwise it creates the sensor through the
manager, inserts the returned id into `sensorIds` (line 357) before the
null/`NO_SENSOR` check (line 359, which only logs), then unconditionally
dereferences `dynamic_cast<RenderingSensor *>(sensor)` (lines 366-370).
-/

/-- The sdf sensor type, abstracted to what `CreateSensor` inspects. -/
inductive SdfSensorType where
  | NONE
  | camera
  | depthCamera
  | gpuLidar
  | rgbdCamera
  deriving DecidableEq, Repr

/-- The sensor object the manager hands back for the freshly created id. -/
structure CreatedSensor where
  id : Nat
  name : String
  isRendering : Bool
  deriving DecidableEq, Repr

/-- The external `sensors::Manager`'s response to this creation: the returned
`SensorId` and the pointer `Sensor(sensorId)` (possibly null). -/
structure ManagerResponse where
  sensorId : Nat
  sensor : Option CreatedSensor
  deriving DecidableEq, Repr

/-- Outcome of one `CreateSensor` call. `unsupportedKind` is the NONE-type
rejection (empty string returned, nothing created); `nullDeref` is the
undefined behaviour of calling `SetScene` through a null
`RenderingSensor *`; `ok name` is the normal return of `sensor->Name()`. -/
inductive CreateResult where
  | unsupportedKind
  | nullDeref
  | ok (name : String)
  deriving DecidableEq, Repr

/-- Registry insertion: `sensorIds.insert(sensorId)` on the `std::set`. -/
def registryInsert (reg : List Nat) (id : Nat) : List Nat :=
  if id ∈ reg then reg else reg ++ [id]

/-- `Sensors::CreateSensor`: the new `sensorIds` registry and the result.
A sensor whose pointer is null or that is not a `RenderingSensor` makes the
`dynamic_cast` yield null and the subsequent `SetScene` call dereference
null; the preceding validity check only logs and falls through. -/
def CreateSensor (reg : List Nat) (ty : SdfSensorType) (mgr : ManagerResponse) :
    List Nat × CreateResult :=
  if ty = SdfSensorType.NONE then (reg, CreateResult.unsupportedKind)
  else
    let reg' := registryInsert reg mgr.sensorId
    match mgr.sensor with
    | Option.some s =>
        if s.isRendering then (reg', CreateResult.ok s.name)
        else (reg', CreateResult.nullDeref)
    | Option.none => (reg', CreateResult.nullDeref)

/-!
## `SensorsPrivate::Run` (lines 215-220) and `SensorsPrivate::Stop`
(lines 223-235), as functions on a small lifecycle state

`Run` sets `running = true` and constructs a new `renderThread` — with no
check whether a worker is already running.  `Stop` sets `running = false`,
notifies all waiters, and joins the thread only if `joinable()`; joining
makes the handle non-joinable, so a repeated call performs no second join.
-/

/-- Lifecycle state: the `running` flag, whether `renderThread` currently
holds a joinable thread, and a ghost count of threads spawned so far. -/
structure LifeState where
  running : Bool
  threadJoinable : Bool
  spawnCount : Nat
  deriving DecidableEq, Repr

/-- `SensorsPrivate::Run`: unconditionally set `running` and spawn a worker
thread (the source has no already-running check). -/
def SensorsPrivateRun (s : LifeState) : LifeState :=
  { running := true, threadJoinable := true, spawnCount := s.spawnCount + 1 }

/-- Result of one `Stop` call: the new state and whether this call joined
the worker thread. -/
structure StopResult where
  state : LifeState
  didJoin : Bool
  deriving DecidableEq, Repr

/-- `SensorsPrivate::Stop`: clear `running`, wake everyone, and join only a
joinable thread (a joined thread handle stops being joinable). -/
def SensorsPrivateStop (s : LifeState) : StopResult :=
  { state := { running := false, threadJoinable := false,
               spawnCount := s.spawnCount },
    didJoin := s.threadJoinable }

/-!
## The two-thread gate protocol as a small-step transition system

The fields below are exactly the shared data guarded by `renderMutex`
(`running`, `doInit`, `initialized`, `updateAvailable`, `updateTime`,
`activeSensors`) plus the mask, the two threads' control points, and ghost
data.  Every critical section of the source holds `renderMutex` for its
whole extent, so each becomes one atomic transition:

* `SensorsPrivate::WaitForInit` — the loop test (line 120), the
  condition-variable wait with predicate `doInit || !running` (line 126),
  and the woken body (lines 129-139);
* `SensorsPrivate::RenderThread` — the `while (running)` test (line 207);
* `SensorsPrivate::RunOnce` — the wait with predicate
  `!running || updateAvailable` (line 148), the early return on `!running`
  (line 152), and the pass body (lines 155-194);
* `Sensors::PostUpdate` — setting `doInit` (lines 283-287), and the gate
  section (lines 327-339): wait with predicate
  `!running || !updateAvailable`, early return on `!running`, else the
  publish writes;
* `SensorsPrivate::Stop` — `running = false` plus `notify_all`
  (lines 226-229).
-/

/-- Control points of the render worker thread. -/
inductive WorkerPC where
  /-- at the `while (!initialized && running)` test of `WaitForInit`. -/
  | waitInitCheck
  /-- blocked in `WaitForInit`'s condition-variable wait. -/
  | waitInitBlocked
  /-- at the `while (running)` test of `RenderThread`. -/
  | loopCheck
  /-- blocked in `RunOnce`'s condition-variable wait. -/
  | runWait
  /-- the worker thread has returned. -/
  | exited
  deriving DecidableEq, Repr

/-- A pending render request: the active sensor set and its timestamp. -/
structure Request where
  active : List RSensor
  time : ℚ
  deriving DecidableEq, Repr

/-- Control points of the simulation thread inside `PostUpdate`'s gate
section. -/
inductive SimPC where
  /-- outside the gate section (between steps, or scanning). -/
  | idle
  /-- blocked in the publishing wait of `PostUpdate` with a computed
  request. -/
  | pubWait (req : Request)
  /-- `PostUpdate` returned early because shutdown was observed while it
  waited to publish. -/
  | retShutdown
  deriving DecidableEq, Repr

/-- The shared scheduler state. `hasRenderSensor` abstracts the environment
condition of `PostUpdate` lines 277-281 (a camera/depth/lidar/rgbd component
exists in the ECM); `passes` is a ghost counter of executed pass bodies. -/
structure GState where
  running : Bool
  doInit : Bool
  initialized : Bool
  updateAvailable : Bool
  updateTime : ℚ
  activeSensors : List RSensor
  sensorMask : List (Nat × ℚ)
  hasRenderSensor : Bool
  workerPc : WorkerPC
  simPc : SimPC
  passes : Nat
  deriving DecidableEq, Repr

/-- One interleaved step of the scheduler: a transition of the worker
thread, of the simulation thread, or of `Stop`. -/
inductive Step : GState → GState → Prop where
  /-- `WaitForInit` loop test, entering the wait
  (`!initialized && running`). -/
  | initCheckEnter (s : GState) :
      s.workerPc = WorkerPC.waitInitCheck → s.initialized = false →
      s.running = true →
      Step s { s with workerPc := WorkerPC.waitInitBlocked }
  /-- `WaitForInit` loop test failing: fall through to the `RenderThread`
  loop. -/
  | initCheckExit (s : GState) :
      s.workerPc = WorkerPC.waitInitCheck →
      (s.initialized = true ∨ s.running = false) →
      Step s { s with workerPc := WorkerPC.loopCheck }
  /-- Wake from `WaitForInit`'s wait (predicate `doInit || !running`); if
  `doInit`, initialize the render context; always clear `updateAvailable`
  and notify, then re-test the loop condition. -/
  | initWake (s : GState) :
      s.workerPc = WorkerPC.waitInitBlocked →
      (s.doInit = true ∨ s.running = false) →
      Step s { s with
        initialized := s.doInit || s.initialized,
        updateAvailable := false,
        workerPc := WorkerPC.waitInitCheck }
  /-- `RenderThread`'s `while (running)` test succeeding: call `RunOnce`. -/
  | loopEnter (s : GState) :
      s.workerPc = WorkerPC.loopCheck → s.running = true →
      Step s { s with workerPc := WorkerPC.runWait }
  /-- `RenderThread`'s `while (running)` test failing: thread exits. -/
  | loopExit (s : GState) :
      s.workerPc = WorkerPC.loopCheck → s.running = false →
      Step s { s with workerPc := WorkerPC.exited }
  /-- Wake from `RunOnce`'s wait with `!running`: return without a pass. -/
  | runWakeShutdown (s : GState) :
      s.workerPc = WorkerPC.runWait → s.running = false →
      Step s { s with workerPc := WorkerPC.loopCheck }
  /-- Wake from `RunOnce`'s wait with a pending request: execute the pass
  body (mask writes, pre-render, sensor publish), clear `activeSensors`,
  clear `updateAvailable`, notify. -/
  | runPass (s : GState) :
      s.workerPc = WorkerPC.runWait → s.running = true →
      s.updateAvailable = true →
      Step s { s with
        sensorMask := maskWrite s.activeSensors s.updateTime s.sensorMask,
        activeSensors := [],
        updateAvailable := false,
        workerPc := WorkerPC.loopCheck,
        passes := s.passes + 1 }
  /-- `PostUpdate` lines 277-287: a rendering-sensor component exists and
  the context is uninitialized, so set `doInit` and notify. -/
  | simSignalInit (s : GState) :
      s.simPc = SimPC.idle → s.initialized = false →
      s.hasRenderSensor = true →
      Step s { s with doInit := true }
  /-- `PostUpdate` entering the gate section with a computed request
  (line 325-327); requires `running && initialized` (line 289). -/
  | simBeginPublish (s : GState) (req : Request) :
      s.simPc = SimPC.idle → s.running = true → s.initialized = true →
      Step s { s with simPc := SimPC.pubWait req }
  /-- Wake from the publishing wait with `!running`: `PostUpdate` returns
  without publishing (lines 331-334). -/
  | simPubWakeShutdown (s : GState) (req : Request) :
      s.simPc = SimPC.pubWait req → s.running = false →
      Step s { s with simPc := SimPC.retShutdown }
  /-- Wake from the publishing wait with the slot free: write the request
  and raise `updateAvailable` (lines 336-339). -/
  | simPubWrite (s : GState) (req : Request) :
      s.simPc = SimPC.pubWait req → s.running = true →
      s.updateAvailable = false →
      Step s { s with
        activeSensors := req.active,
        updateTime := req.time,
        updateAvailable := true,
        simPc := SimPC.idle }
  /-- `SensorsPrivate::Stop` (lines 226-229): clear `running` and wake all
  waiters; callable from any thread at any time. -/
  | stop (s : GState) :
      Step s { s with running := false }

/-- Zero or more interleaved steps. -/
def Reaches : GState → GState → Prop := Relation.ReflTransGen Step

/-- The render worker's own next move, as a function: the same transitions
as the worker constructors of `Step`, with the thread staying put while its
wait predicate is false.  Used to state that the worker drains to `exited`
once `running` is false. -/
def workerNext (s : GState) : GState :=
  match s.workerPc with
  | WorkerPC.waitInitCheck =>
      if !s.initialized && s.running then
        { s with workerPc := WorkerPC.waitInitBlocked }
      else { s with workerPc := WorkerPC.loopCheck }
  | WorkerPC.waitInitBlocked =>
      if s.doInit || !s.running then
        { s with
          initialized := s.doInit || s.initialized,
          updateAvailable := false,
          workerPc := WorkerPC.waitInitCheck }
      else s
  | WorkerPC.loopCheck =>
      if s.running then { s with workerPc := WorkerPC.runWait }
      else { s with workerPc := WorkerPC.exited }
  | WorkerPC.runWait =>
      if !s.running then { s with workerPc := WorkerPC.loopCheck }
      else if s.updateAvailable then
        { s with
          sensorMask := maskWrite s.activeSensors s.updateTime s.sensorMask,
          activeSensors := [],
          updateAvailable := false,
          workerPc := WorkerPC.loopCheck,
          passes := s.passes + 1 }
      else s
  | WorkerPC.exited => s

/-- Keys of a mask. -/
def maskKeys (m : List (Nat × ℚ)) : List Nat := m.map Prod.fst

/-- A mask with pairwise-distinct keys, the invariant of the source's
`std::map<SensorId, Time>`. -/
def maskWF (m : List (Nat × ℚ)) : Prop := (maskKeys m).Nodup

/-- The `dynamic_cast<RenderingSensor *>` of `CreateSensor`, as a partial
downcast on the manager's pointer: null stays null, and a sensor that is not
rendering-capable casts to null. -/
def downcastRendering (o : Option CreatedSensor) : Option CreatedSensor :=
  match o with
  | Option.some s => if s.isRendering then Option.some s else Option.none
  | Option.none => Option.none

/-- A scheduler state with a pending (published, unconsumed) request and a
second publisher already blocked on the gate; used to instantiate the
single-flight theorem. -/
def gPending : GState :=
  { running := true, doInit := false, initialized := true,
    updateAvailable := true, updateTime := 5,
    activeSensors := [⟨1, 10, 0⟩], sensorMask := [],
    hasRenderSensor := true, workerPc := WorkerPC.loopCheck,
    simPc := SimPC.pubWait ⟨[], 7⟩, passes := 0 }

/-- A scheduler state just after `Stop` cleared `running`, with the worker
blocked in `RunOnce`'s wait and a publisher blocked on the gate. -/
def gStopped : GState :=
  { running := false, doInit := false, initialized := true,
    updateAvailable := true, updateTime := 5,
    activeSensors := [], sensorMask := [],
    hasRenderSensor := true, workerPc := WorkerPC.runWait,
    simPc := SimPC.pubWait ⟨[], 7⟩, passes := 2 }

/-- The scheduler state right after `Configure` ran `SensorsPrivate::Run`
in a world without any rendering-sensor component. -/
def gFresh : GState :=
  { running := true, doInit := false, initialized := false,
    updateAvailable := false, updateTime := 0,
    activeSensors := [], sensorMask := [],
    hasRenderSensor := false, workerPc := WorkerPC.waitInitCheck,
    simPc := SimPC.idle, passes := 0 }

/-- Invariant of a run in which no rendering sensor ever appears
(`hasRenderSensor` is false): initialization is never requested, the render
context never initializes, nothing is ever published, no pass executes, and
while `running` holds the worker sits inside `WaitForInit`. -/
def quiescentInv (s : GState) : Prop :=
  s.hasRenderSensor = false ∧ s.doInit = false ∧ s.initialized = false ∧
    s.updateAvailable = false ∧ s.passes = 0 ∧
    (∀ r : Request, s.simPc ≠ SimPC.pubWait r) ∧
    (s.running = true →
      s.workerPc = WorkerPC.waitInitCheck ∨ s.workerPc = WorkerPC.waitInitBlocked)

lemma maskFind_maskSet_self (m : List (Nat × ℚ)) (id : Nat) (d : ℚ) :
    maskFind (maskSet m id d) id = Option.some d := by
  induction m with
  | nil => simp [maskSet, maskFind]
  | cons kv rest ih =>
      obtain ⟨k, v⟩ := kv
      by_cases hk : k = id
      · simp [maskSet, hk, maskFind]
      · simp [maskSet, hk, maskFind, ih]

lemma maskKeys_nil : maskKeys [] = [] := rfl

lemma maskKeys_cons (k : Nat) (v : ℚ) (rest : List (Nat × ℚ)) :
    maskKeys ((k, v) :: rest) = k :: maskKeys rest := rfl

lemma maskFind_eq_none_of_not_mem (m : List (Nat × ℚ)) (id : Nat)
    (h : id ∉ maskKeys m) : maskFind m id = Option.none := by
  induction m with
  | nil => simp [maskFind]
  | cons kv rest ih =>
      obtain ⟨k, v⟩ := kv
      rw [maskKeys_cons, List.mem_cons] at h
      push_neg at h
      have hk : ¬k = id := fun hh => h.1 hh.symm
      simp [maskFind, hk, ih h.2]

lemma mem_maskKeys_maskSet (m : List (Nat × ℚ)) (id a : Nat) (d : ℚ)
    (h : a ∈ maskKeys (maskSet m id d)) : a ∈ maskKeys m ∨ a = id := by
  induction m with
  | nil =>
      rw [show maskSet [] id d = [(id, d)] from rfl, maskKeys_cons] at h
      simp [maskKeys_nil] at h
      exact Or.inr h
  | cons kv rest ih =>
      obtain ⟨k, v⟩ := kv
      by_cases hk : k = id
      · rw [show maskSet ((k, v) :: rest) id d = (id, d) :: rest by
            simp [maskSet, hk], maskKeys_cons, List.mem_cons] at h
        rw [maskKeys_cons, List.mem_cons]
        rcases h with h | h
        · exact Or.inr h
        · exact Or.inl (Or.inr h)
      · rw [show maskSet ((k, v) :: rest) id d = (k, v) :: maskSet rest id d by
            simp [maskSet, hk], maskKeys_cons, List.mem_cons] at h
        rw [maskKeys_cons, List.mem_cons]
        rcases h with h | h
        · exact Or.inl (Or.inl h)
        · rcases ih h with h' | h'
          · exact Or.inl (Or.inr h')
          · exact Or.inr h'

lemma maskWF_maskSet (m : List (Nat × ℚ)) (id : Nat) (d : ℚ)
    (h : maskWF m) : maskWF (maskSet m id d) := by
  induction m with
  | nil => simp [maskWF, maskSet, maskKeys]
  | cons kv rest ih =>
      obtain ⟨k, v⟩ := kv
      rw [maskWF, maskKeys_cons, List.nodup_cons] at h
      by_cases hk : k = id
      · subst hk
        rw [maskWF, show maskSet ((k, v) :: rest) k d = (k, d) :: rest by
              simp [maskSet], maskKeys_cons, List.nodup_cons]
        exact h
      · have ih' := ih h.2
        rw [maskWF, show maskSet ((k, v) :: rest) id d = (k, v) :: maskSet rest id d by
              simp [maskSet, hk], maskKeys_cons, List.nodup_cons]
        refine ⟨fun hmem => ?_, ih'⟩
        rcases mem_maskKeys_maskSet rest id k d hmem with h' | h'
        · exact h.1 h'
        · exact hk h'

lemma maskFind_maskErase_self (m : List (Nat × ℚ)) (id : Nat)
    (h : maskWF m) : maskFind (maskErase m id) id = Option.none := by
  induction m with
  | nil => simp [maskErase, maskFind]
  | cons kv rest ih =>
      obtain ⟨k, v⟩ := kv
      rw [maskWF, maskKeys_cons, List.nodup_cons] at h
      by_cases hk : k = id
      · subst hk
        rw [show maskErase ((k, v) :: rest) k = rest by simp [maskErase]]
        exact maskFind_eq_none_of_not_mem rest k h.1
      · rw [show maskErase ((k, v) :: rest) id = (k, v) :: maskErase rest id by
            simp [maskErase, hk]]
        simp [maskFind, hk, ih h.2]

lemma mem_registryInsert_self (reg : List Nat) (id : Nat) :
    id ∈ registryInsert reg id := by
  by_cases h : id ∈ reg <;> simp [registryInsert, h]

lemma count_preRender_maskEntries (active : List RSensor) (t : ℚ) :
    (active.map fun s =>
      REvent.maskEntry s.id (maskDeadline t s.updateRate)).count
        REvent.preRender = 0 := by
  rw [List.count_eq_zero]
  intro hmem
  rcases List.mem_map.mp hmem with ⟨x, _, hx⟩
  simp at hx

/-- Once `running` is false, the worker drains to `exited` within three of
its own moves — finishing at most the section it is currently in — and
executes no further render pass. -/
lemma worker_drains (s : GState) (h : s.running = false) :
    (workerNext (workerNext (workerNext s))).workerPc = WorkerPC.exited ∧
    (workerNext (workerNext (workerNext s))).passes = s.passes := by
  cases hpc : s.workerPc <;> simp [workerNext, hpc, h]

lemma quiescentInv_step {s s' : GState} (hstep : Step s s')
    (h : quiescentInv s) : quiescentInv s' := by
  obtain ⟨h1, h2, h3, h4, h5, h6, h7⟩ := h
  cases hstep <;> simp_all [quiescentInv]

lemma quiescentInv_reaches {s s' : GState} (h : Reaches s s')
    (hinv : quiescentInv s) : quiescentInv s' := by
  induction h with
  | refl => exact hinv
  | tail _ hstep ih => exact quiescentInv_step hstep ih

/-- Claim C1: single-flight back-pressure. The gate holds at most one
pending request (the single `updateAvailable` slot with `updateTime` and
`activeSensors`). Across every interleaved step of the protocol, a pending
(unconsumed) request's timestamp and sensor set are never overwritten — they
change only when the render pass consumes the request and clears the flag —
and a publisher blocked in `PostUpdate`'s gate wait stays blocked as long as
the prior request is unconsumed and the system is running. -/
theorem C1_single_flight :
    ∀ s s' : GState, Step s s' →
      (s.updateAvailable = true → s'.updateAvailable = true →
        s'.updateTime = s.updateTime ∧ s'.activeSensors = s.activeSensors) ∧
      (∀ req : Request, s.simPc = SimPC.pubWait req → s.running = true →
        s.updateAvailable = true → s'.simPc = SimPC.pubWait req) := by
  intro s s' hstep
  cases hstep <;> refine ⟨fun h1 h2 => ?_, fun req hq hr hu => ?_⟩ <;> simp_all

/-- Witness for C1 at a concrete state with a pending request and a blocked
second publisher, stepped by `Stop`. -/
theorem C1_single_flight_witness :
    ({ gPending with running := false } : GState).updateTime =
        gPending.updateTime ∧
      ({ gPending with running := false } : GState).activeSensors =
        gPending.activeSensors ∧
      ({ gPending with running := false } : GState).simPc =
        SimPC.pubWait ⟨[], 7⟩ := by
  have h := C1_single_flight gPending { gPending with running := false }
    (Step.stop gPending)
  exact ⟨(h.1 rfl rfl).1, (h.1 rfl rfl).2, h.2 ⟨[], 7⟩ rfl rfl rfl⟩

/-- Claim C2, counterexample: in the source's `RunOnce` the mask update
happens before the scene pre-render and the sensor publish, not after them
as the claim orders the pass. At a one-sensor request the actual trace
differs from the claimed trace, with the mask entry written directly after
the scene sync. -/
theorem C2_pass_order_counterexample :
    runOnceTrace [⟨1, 10, 0⟩] 0 ≠ runOnceTraceSpecC2 [⟨1, 10, 0⟩] 0 ∧
      runOnceTrace [⟨1, 10, 0⟩] 0 =
        [REvent.sceneUpdate, REvent.maskEntry 1 (9 / 100), REvent.preRender,
          REvent.sensorRun 0, REvent.complete] := by
  refine ⟨by simp [runOnceTrace, runOnceTraceSpecC2], ?_⟩
  simp only [runOnceTrace, maskDeadline, List.map, List.isEmpty,
    List.append_assoc, List.cons_append, List.nil_append]
  norm_num

/-- Claim C2 as amended: for a claimed request with a non-empty active set
the pass performs, in order, one scene sync, the update-rate-mask update for
every sensor of the request, exactly one scene pre-render (one per pass, not
per sensor), the sensor data generation/publish for the request's timestamp,
and finally the completion that clears the outstanding flag. -/
theorem C2_pass_order :
    ∀ (active : List RSensor) (t : ℚ), active ≠ [] →
      runOnceTrace active t =
        REvent.sceneUpdate ::
          ((active.map fun s =>
              REvent.maskEntry s.id (maskDeadline t s.updateRate)) ++
            [REvent.preRender, REvent.sensorRun t, REvent.complete]) ∧
      (runOnceTrace active t).count REvent.preRender = 1 := by
  intro active t h
  have he : active.isEmpty = false := by
    simpa [List.isEmpty_iff] using h
  constructor
  · simp [runOnceTrace, he]
  · simp [runOnceTrace, he, List.count_append, List.count_cons,
      count_preRender_maskEntries]

/-- Witness for C2 at a concrete one-sensor request. -/
theorem C2_pass_order_witness :
    runOnceTrace [⟨1, 10, 0⟩] 0 =
        REvent.sceneUpdate ::
          (([⟨1, 10, 0⟩] : List RSensor).map fun s =>
              REvent.maskEntry s.id (maskDeadline 0 s.updateRate)) ++
            [REvent.preRender, REvent.sensorRun 0, REvent.complete] ∧
      (runOnceTrace [⟨1, 10, 0⟩] 0).count REvent.preRender = 1 :=
  C2_pass_order [⟨1, 10, 0⟩] 0 (by decide)

/-- Claim C3: update-rate mask semantics. After a pass at time `T` writes a
sensor's mask entry, the entry's deadline is `T + 0.9/updateRate`; a scan at
any `T'` with `T ≤ T' < T + 0.9/updateRate` leaves the mask unchanged and
excludes the sensor; a scan at `T' ≥ T + 0.9/updateRate` evicts the entry
and includes the sensor exactly when it is otherwise due (the cast to a
rendering sensor succeeded and its next-update time has elapsed). -/
theorem C3_mask_semantics :
    ∀ (m : List (Nat × ℚ)) (s : ScanSensor) (T Tp : ℚ), maskWF m →
      maskFind (maskSet m s.sensor.id (maskDeadline T s.sensor.updateRate))
          s.sensor.id = Option.some (maskDeadline T s.sensor.updateRate) ∧
      (T ≤ Tp → Tp < maskDeadline T s.sensor.updateRate →
        processSensor (maskSet m s.sensor.id
            (maskDeadline T s.sensor.updateRate)) Tp s =
          (maskSet m s.sensor.id (maskDeadline T s.sensor.updateRate),
            false)) ∧
      (maskDeadline T s.sensor.updateRate ≤ Tp →
        maskFind (processSensor (maskSet m s.sensor.id
            (maskDeadline T s.sensor.updateRate)) Tp s).1 s.sensor.id =
          Option.none ∧
        (processSensor (maskSet m s.sensor.id
            (maskDeadline T s.sensor.updateRate)) Tp s).2 =
          (s.isRendering && decide (s.sensor.nextUpdate ≤ Tp))) := by
  intro m s T Tp hwf
  have hfind := maskFind_maskSet_self m s.sensor.id
    (maskDeadline T s.sensor.updateRate)
  refine ⟨hfind, fun _ hlt => ?_, fun hge => ?_⟩
  · have hnle : ¬maskDeadline T s.sensor.updateRate ≤ Tp := not_le.mpr hlt
    simp [processSensor, hfind, hnle]
  · have hwf' := maskWF_maskSet m s.sensor.id
      (maskDeadline T s.sensor.updateRate) hwf
    refine ⟨?_, by simp [processSensor, hfind, hge]⟩
    simp only [processSensor, hfind, hge, if_pos]
    exact maskFind_maskErase_self _ s.sensor.id hwf'

/-- Witness for C3: a 10 Hz sensor masked at `T = 0` (deadline `9/100`) is
excluded at `T' = 1/20` with the mask kept, and evicted at `T' = 1/10`. -/
theorem C3_mask_semantics_witness :
    processSensor (maskSet [] 1 (maskDeadline 0 10)) (1 / 20)
        ⟨⟨1, 10, 0⟩, true⟩ =
      (maskSet [] 1 (maskDeadline 0 10), false) ∧
    maskFind (processSensor (maskSet [] 1 (maskDeadline 0 10)) (1 / 10)
        ⟨⟨1, 10, 0⟩, true⟩).1 1 = Option.none := by
  constructor
  · exact (C3_mask_semantics [] ⟨⟨1, 10, 0⟩, true⟩ 0 (1 / 20)
      (by simp [maskWF, maskKeys])).2.1 (by norm_num)
      (by simp [maskDeadline]; norm_num)
  · exact ((C3_mask_semantics [] ⟨⟨1, 10, 0⟩, true⟩ 0 (1 / 10)
      (by simp [maskWF, maskKeys])).2.2 (by simp [maskDeadline]; norm_num)).1

/-- Claim C4, counterexample: with no registered sensors at all (so the
computed active set is empty) but one pending sensor in the render utility,
`PostUpdate` still enters the gate and publishes — the publish condition is
not equivalent to a non-empty active set. -/
theorem C4_publish_counterexample :
    ¬(postUpdatePublishes true true [] [] 0 1 = true ↔
        (scanSensors [] [] 0).1 ≠ []) := by
  intro h
  exact (h.mp rfl) rfl

/-- Claim C4 as amended: `PostUpdate` performs the gate publish if and only
if it is running and initialized and either the scan's active set is
non-empty or the render utility reports pending sensors
(`RenderUtil::PendingSensors() > 0`); otherwise it performs no gate
operation. -/
theorem C4_publish_condition :
    ∀ (running initialized : Bool) (sensors : List ScanSensor)
      (m : List (Nat × ℚ)) (t : ℚ) (pending : Nat),
      postUpdatePublishes running initialized sensors m t pending = true ↔
        (running = true ∧ initialized = true ∧
          ((scanSensors sensors m t).1 ≠ [] ∨ 0 < pending)) := by
  intro running initialized sensors m t pending
  simp [postUpdatePublishes, List.isEmpty_iff, and_assoc]

/-- Claim C5: shutdown wakes all waiters and terminates the worker. Once
`running` is false: the worker drains to `exited` within three of its own
moves without executing another pass (finishing at most what it had already
claimed); a publisher blocked in `PostUpdate`'s gate wait can step to the
shutdown return; and a worker blocked in `RunOnce`'s wait returns to the
loop test (the shutdown path) instead of executing a pass. -/
theorem C5_shutdown_wakes_all :
    ∀ (s : GState) (req : Request), s.running = false →
      ((workerNext (workerNext (workerNext s))).workerPc = WorkerPC.exited ∧
        (workerNext (workerNext (workerNext s))).passes = s.passes) ∧
      (s.simPc = SimPC.pubWait req →
        Step s { s with simPc := SimPC.retShutdown }) ∧
      (s.workerPc = WorkerPC.runWait →
        workerNext s = { s with workerPc := WorkerPC.loopCheck }) := by
  intro s req h
  refine ⟨worker_drains s h, fun hq => Step.simPubWakeShutdown s req hq h,
    fun hw => ?_⟩
  simp [workerNext, hw, h]

/-- Witness for C5 at a concrete stopped state with a blocked worker and a
blocked publisher. -/
theorem C5_shutdown_wakes_all_witness :
    (workerNext (workerNext (workerNext gStopped))).workerPc =
        WorkerPC.exited ∧
      Step gStopped { gStopped with simPc := SimPC.retShutdown } ∧
      workerNext gStopped = { gStopped with workerPc := WorkerPC.loopCheck } := by
  have h := C5_shutdown_wakes_all gStopped ⟨[], 7⟩ rfl
  exact ⟨h.1.1, h.2.1 rfl, h.2.2 rfl⟩

/-- Claim C6, counterexample: `SensorsPrivate::Run` has no already-running
check. Starting from a stopped state, a first `Run` spawns a worker, and a
second `Run` — issued while running — is not rejected: it changes the state
again and spawns a second worker thread. -/
theorem C6_run_counterexample :
    (SensorsPrivateRun (SensorsPrivateRun ⟨false, false, 0⟩)).spawnCount = 2 ∧
      SensorsPrivateRun (SensorsPrivateRun ⟨false, false, 0⟩) ≠
        SensorsPrivateRun ⟨false, false, 0⟩ := by
  exact ⟨rfl, by decide⟩

/-- Claim C6 as amended: `Run` performs no already-running check — called
while the scheduler is already running it reports no error, sets `running`
again, and silently spawns another worker thread (overwriting the thread
handle). -/
theorem C6_run_no_already_running_check :
    ∀ s : LifeState, s.running = true →
      SensorsPrivateRun s =
        { running := true, threadJoinable := true,
          spawnCount := s.spawnCount + 1 } := by
  intro s _
  rfl

/-- Witness for C6 at a concrete already-running state. -/
theorem C6_run_witness :
    SensorsPrivateRun ⟨true, true, 1⟩ =
      { running := true, threadJoinable := true, spawnCount := 2 } :=
  C6_run_no_already_running_check ⟨true, true, 1⟩ rfl

/-- Claim C7: sensor creation contract. A descriptor whose sdf type is
`NONE` is rejected — an error is reported, nothing is created and the
registry is untouched; on success (the manager yields a pointer that casts
to a rendering sensor) the new sensor's id is registered in `sensorIds` for
later lookup and the call returns the sensor's display name. -/
theorem C7_create_sensor_contract :
    ∀ (reg : List Nat) (ty : SdfSensorType) (mgr : ManagerResponse)
      (s : CreatedSensor),
      (ty = SdfSensorType.NONE →
        CreateSensor reg ty mgr = (reg, CreateResult.unsupportedKind)) ∧
      (ty ≠ SdfSensorType.NONE → mgr.sensor = Option.some s →
        s.isRendering = true →
        mgr.sensorId ∈ (CreateSensor reg ty mgr).1 ∧
        (CreateSensor reg ty mgr).2 = CreateResult.ok s.name) := by
  intro reg ty mgr s
  constructor
  · intro h
    simp [CreateSensor, h]
  · intro hne hs hr
    refine ⟨?_, ?_⟩ <;> simp [CreateSensor, hne, hs, hr]
    exact mem_registryInsert_self reg mgr.sensorId

/-- Witness for C7: a camera descriptor creating sensor id 7 named "cam",
and a NONE descriptor being rejected. -/
theorem C7_create_sensor_contract_witness :
    (7 ∈ (CreateSensor [] SdfSensorType.camera
        ⟨7, Option.some ⟨7, "cam", true⟩⟩).1 ∧
      (CreateSensor [] SdfSensorType.camera
        ⟨7, Option.some ⟨7, "cam", true⟩⟩).2 = CreateResult.ok "cam") ∧
    CreateSensor [] SdfSensorType.NONE ⟨7, Option.none⟩ =
      ([], CreateResult.unsupportedKind) := by
  constructor
  · exact (C7_create_sensor_contract [] SdfSensorType.camera
      ⟨7, Option.some ⟨7, "cam", true⟩⟩ ⟨7, "cam", true⟩).2
      (by decide) rfl rfl
  · exact (C7_create_sensor_contract [] SdfSensorType.NONE
      ⟨7, Option.none⟩ ⟨7, "cam", true⟩).1 rfl

/-- Claim C8: with no rendering sensor ever appearing, the worker never
leaves `WaitForInit` while running, the render context never initializes,
zero render passes execute, and once `Stop` clears `running` the worker
still drains to `exited` (so the join returns) with the pass count still
zero. Stated over every state reachable from a state satisfying
`quiescentInv` — in particular from the post-`Run` state `gFresh`. -/
theorem C8_no_init_no_passes :
    ∀ s0 s : GState, quiescentInv s0 → Reaches s0 s →
      s.initialized = false ∧ s.passes = 0 ∧
      (s.running = true →
        s.workerPc = WorkerPC.waitInitCheck ∨
          s.workerPc = WorkerPC.waitInitBlocked) ∧
      (s.running = false →
        (workerNext (workerNext (workerNext s))).workerPc =
            WorkerPC.exited ∧
          (workerNext (workerNext (workerNext s))).passes = 0) := by
  intro s0 s h0 hr
  obtain ⟨h1, h2, h3, h4, h5, h6, h7⟩ := quiescentInv_reaches hr h0
  refine ⟨h3, h5, h7, fun hrun => ?_⟩
  have hd := worker_drains s hrun
  exact ⟨hd.1, hd.2.trans h5⟩

/-- Witness for C8: from the post-`Run` state with no rendering sensors,
after a `Stop` step the pass count is zero and the worker drains out. -/
theorem C8_no_init_no_passes_witness :
    ({ gFresh with running := false } : GState).passes = 0 ∧
      (workerNext (workerNext (workerNext
        ({ gFresh with running := false } : GState)))).workerPc =
        WorkerPC.exited := by
  have hinv : quiescentInv gFresh := by
    refine ⟨rfl, rfl, rfl, rfl, rfl, ?_, fun _ => Or.inl rfl⟩
    intro r hq
    simp [gFresh] at hq
  have h := C8_no_init_no_passes gFresh { gFresh with running := false }
    hinv (Relation.ReflTransGen.single (Step.stop gFresh))
  exact ⟨h.2.1, (h.2.2.2 rfl).1⟩

/-- Claim C9: `SensorsPrivate::Stop` is idempotent. A second call after the
first (which already cleared `running` and joined the now non-joinable
worker thread) produces the same state, reports no error, and performs no
second join. -/
theorem C9_stop_idempotent :
    ∀ s : LifeState,
      (SensorsPrivateStop (SensorsPrivateStop s).state).didJoin = false ∧
      (SensorsPrivateStop (SensorsPrivateStop s).state).state =
        (SensorsPrivateStop s).state := by
  intro s
  exact ⟨rfl, rfl⟩

/-- Claim C10: after the NONE-type guard, `CreateSensor` inserts the
manager-returned id into the registry before the validity check and then
unconditionally dereferences the downcast rendering-sensor pointer; the
dereference avoids a null-pointer error exactly when the downcast succeeds
— the logging-only failure branch does not make it unreachable. -/
theorem C10_unconditional_deref :
    ∀ (reg : List Nat) (ty : SdfSensorType) (mgr : ManagerResponse),
      ty ≠ SdfSensorType.NONE →
      mgr.sensorId ∈ (CreateSensor reg ty mgr).1 ∧
      ((CreateSensor reg ty mgr).2 = CreateResult.nullDeref ↔
        downcastRendering mgr.sensor = Option.none) := by
  intro reg ty mgr hne
  constructor
  · cases hs : mgr.sensor with
    | none =>
        simpa [CreateSensor, hne, hs] using
          mem_registryInsert_self reg mgr.sensorId
    | some s =>
        by_cases hr : s.isRendering <;>
          simpa [CreateSensor, hne, hs, hr] using
            mem_registryInsert_self reg mgr.sensorId
  · cases hs : mgr.sensor with
    | none => simp [CreateSensor, hne, hs, downcastRendering]
    | some s =>
        by_cases hr : s.isRendering <;>
          simp [CreateSensor, hne, hs, hr, downcastRendering]

/-- Witness for C10: a camera descriptor for which the manager's pointer is
null — the id is still registered and the call dereferences null. -/
theorem C10_unconditional_deref_witness :
    3 ∈ (CreateSensor [] SdfSensorType.camera ⟨3, Option.none⟩).1 ∧
      (CreateSensor [] SdfSensorType.camera ⟨3, Option.none⟩).2 =
        CreateResult.nullDeref := by
  have h := C10_unconditional_deref [] SdfSensorType.camera
    ⟨3, Option.none⟩ (by decide)
  exact ⟨h.1, h.2.mpr rfl⟩

end SensorsSys
